import Mathlib

/-!
Verification of the Sea Turtle Quest game logic.

The repository holds two near-duplicate variants of the game:
the richer, team-based variant (file src/unnamed/part_000) and the
simpler variant (file src/src/App.tsx).  The definitions below are a
shallow embedding of the state/reward engine of both variants:
JavaScript numbers are modelled as Int (question indices as Nat, the
card-draw random real as a rational), Record objects as association
lists, Partial updates as structures of Option fields, and the React
setState update functions as pure state transformers.
-/

namespace SeaTurtle

/-- Card rarity tiers, in the declared catalog order. -/
inductive Rarity
  | common
  | rare
  | epic
  | legendary
deriving DecidableEq, Repr

/-- Card effect types (field type of CARD_REWARDS entries). -/
inductive CardType
  | coins
  | shells
  | bonus
  | action
  | skip
deriving DecidableEq, Repr

/-- Question difficulty levels. -/
inductive Difficulty
  | easy
  | medium
  | hard
deriving DecidableEq, Repr

/-- GameLog entries (interface GameLog in both variants). -/
structure GameLog where
  type : String
  zone : String
  result : String
  reward : Int
  timestamp : Int
  description : String
deriving DecidableEq, Repr

/-- CollectedCard (interface CollectedCard in both variants). -/
structure CollectedCard where
  id : String
  name : String
  emoji : String
  rarity : Rarity
  type : CardType
  amount : Int
  timestamp : Int
deriving DecidableEq, Repr

/-- A CARD_REWARDS catalog entry. -/
structure CardTemplate where
  id : String
  name : String
  emoji : String
  rarity : Rarity
  type : CardType
  amount : Int
deriving DecidableEq, Repr

/-- Question (interface Question in the richer variant). -/
structure Question where
  question : String
  options : List String
  answer : Nat
  explanation : String
  difficulty : Difficulty
deriving DecidableEq, Repr

/-- Player of the richer variant (interface Player in src/unnamed/part_000).
Record-typed fields zoneProgress and answeredQuestions are modelled as
association lists keyed by zone id. -/
structure Player where
  id : String
  name : String
  color : String
  coins : Int
  shells : Int
  completedZones : List String
  zoneProgress : List (String × Int)
  answeredQuestions : List (String × List Nat)
  actionChances : Int
  log : List GameLog
  achievements : List String
  totalScore : Int
  lastActive : Int
  isWinner : Bool
  winTime : Option Int
  collectedCards : List CollectedCard
deriving DecidableEq, Repr

/-- Player of the simpler variant (interface Player in src/src/App.tsx):
identical to the richer Player but without zoneProgress and
answeredQuestions. -/
structure PlayerS where
  id : String
  name : String
  color : String
  coins : Int
  shells : Int
  completedZones : List String
  actionChances : Int
  log : List GameLog
  achievements : List String
  totalScore : Int
  lastActive : Int
  isWinner : Bool
  winTime : Option Int
  collectedCards : List CollectedCard
deriving DecidableEq, Repr

/-- Lookup in an association list with a default, modelling
record[key] with a JS default fallback. -/
def lookupD {β : Type} (m : List (String × β)) (k : String) (d : β) : β :=
  match m.find? (fun e => e.1 == k) with
  | some e => e.2
  | none => d

/-- Lookup in an association list, returning none for an absent key,
modelling record[key] consulted for existence. -/
def lookupA {β : Type} (m : List (String × β)) (k : String) : Option β :=
  (m.find? (fun e => e.1 == k)).map Prod.snd

/-- Overwrite one key of an association list, modelling the JS object
spread update with a computed key. -/
def setA {β : Type} (m : List (String × β)) (k : String) (v : β) : List (String × β) :=
  m.filter (fun e => !(e.1 == k)) ++ [(k, v)]

/-- A Partial Player update object of the richer variant: every field
of Player may or may not be present. -/
structure PlayerUpdates where
  id : Option String := none
  name : Option String := none
  color : Option String := none
  coins : Option Int := none
  shells : Option Int := none
  completedZones : Option (List String) := none
  zoneProgress : Option (List (String × Int)) := none
  answeredQuestions : Option (List (String × List Nat)) := none
  actionChances : Option Int := none
  log : Option (List GameLog) := none
  achievements : Option (List String) := none
  totalScore : Option Int := none
  lastActive : Option Int := none
  isWinner : Option Bool := none
  winTime : Option (Option Int) := none
  collectedCards : Option (List CollectedCard) := none
deriving Repr

/-- A Partial PlayerS update object of the simpler variant. -/
structure PlayerUpdatesS where
  id : Option String := none
  name : Option String := none
  color : Option String := none
  coins : Option Int := none
  shells : Option Int := none
  completedZones : Option (List String) := none
  actionChances : Option Int := none
  log : Option (List GameLog) := none
  achievements : Option (List String) := none
  totalScore : Option Int := none
  lastActive : Option Int := none
  isWinner : Option Bool := none
  winTime : Option (Option Int) := none
  collectedCards : Option (List CollectedCard) := none
deriving Repr

/-- updatePlayer of the richer variant (src/unnamed/part_000 lines
808 to 831): spread the existing player, then the updates, then set
lastActive to now, then recompute totalScore from the merged coins,
shells and completedZones. -/
def updatePlayer (p : Player) (u : PlayerUpdates) (now : Int) : Player :=
  let merged : Player :=
    { id := u.id.getD p.id
      name := u.name.getD p.name
      color := u.color.getD p.color
      coins := u.coins.getD p.coins
      shells := u.shells.getD p.shells
      completedZones := u.completedZones.getD p.completedZones
      zoneProgress := u.zoneProgress.getD p.zoneProgress
      answeredQuestions := u.answeredQuestions.getD p.answeredQuestions
      actionChances := u.actionChances.getD p.actionChances
      log := u.log.getD p.log
      achievements := u.achievements.getD p.achievements
      totalScore := u.totalScore.getD p.totalScore
      lastActive := now
      isWinner := u.isWinner.getD p.isWinner
      winTime := u.winTime.getD p.winTime
      collectedCards := u.collectedCards.getD p.collectedCards }
  { merged with
      totalScore := merged.coins * 2 + merged.shells * 5 +
        (merged.completedZones.length : Int) * 10 }

/-- updatePlayer of the simpler variant (src/src/App.tsx lines 706 to
729): textually the same computation on the simpler Player shape. -/
def updatePlayerS (p : PlayerS) (u : PlayerUpdatesS) (now : Int) : PlayerS :=
  let merged : PlayerS :=
    { id := u.id.getD p.id
      name := u.name.getD p.name
      color := u.color.getD p.color
      coins := u.coins.getD p.coins
      shells := u.shells.getD p.shells
      completedZones := u.completedZones.getD p.completedZones
      actionChances := u.actionChances.getD p.actionChances
      log := u.log.getD p.log
      achievements := u.achievements.getD p.achievements
      totalScore := u.totalScore.getD p.totalScore
      lastActive := now
      isWinner := u.isWinner.getD p.isWinner
      winTime := u.winTime.getD p.winTime
      collectedCards := u.collectedCards.getD p.collectedCards }
  { merged with
      totalScore := merged.coins * 2 + merged.shells * 5 +
        (merged.completedZones.length : Int) * 10 }

/-- The difficulty-determined flat score passed to updatePlayer by
handleQuestionAnswer in the richer variant (lines 2043 to 2044). -/
def baseScore (d : Difficulty) : Int :=
  match d with
  | .easy => 10
  | .medium => 15
  | .hard => 20

/-- Shell reward for a correct answer in the coral zone (lines 2048
to 2049 of the richer variant). -/
def coralShellReward (d : Difficulty) : Int :=
  match d with
  | .easy => 1
  | .medium => 2
  | .hard => 3

/-- Coin reward for a correct answer in the volcano or kelp zones
(lines 2053 to 2054 of the richer variant). -/
def coinZoneReward (d : Difficulty) : Int :=
  match d with
  | .easy => 2
  | .medium => 3
  | .hard => 4

/-- The Partial Player update computed by handleQuestionAnswer of the
richer variant (src/unnamed/part_000 lines 2023 to 2099) for a
presented question with original index originalIndex.  Both branches
append the presented index to the answeredQuestions entry of the zone
and spend one action chance; only the correct branch grants rewards,
advances zoneProgress and possibly completes the zone. -/
def questionAnswerUpdates (p : Player) (zoneId : String) (q : Question)
    (originalIndex : Nat) (isCorrect : Bool) : PlayerUpdates :=
  let answered := lookupD p.answeredQuestions zoneId []
  let newAnswered := answered ++ [originalIndex]
  if isCorrect then
    let shellReward : Int := if zoneId = "coral" then coralShellReward q.difficulty else 0
    let coinReward : Int :=
      if zoneId = "volcano" ∨ zoneId = "kelp" then coinZoneReward q.difficulty else 0
    let scoreReward : Int :=
      if zoneId = "coral" ∨ zoneId = "volcano" ∨ zoneId = "kelp" then
        baseScore q.difficulty else 0
    let zoneProg := lookupD p.zoneProgress zoneId 0 + 1
    let isZoneCompleted := 3 ≤ zoneProg
    { coins := some (p.coins + coinReward)
      shells := some (p.shells + shellReward)
      totalScore := some (p.totalScore + scoreReward)
      actionChances := some (p.actionChances - 1)
      zoneProgress := some (setA p.zoneProgress zoneId zoneProg)
      answeredQuestions := some (setA p.answeredQuestions zoneId newAnswered)
      completedZones := some
        (if isZoneCompleted ∧ ¬ p.completedZones.contains zoneId then
          p.completedZones ++ [zoneId] else p.completedZones) }
  else
    { actionChances := some (p.actionChances - 1)
      answeredQuestions := some (setA p.answeredQuestions zoneId newAnswered) }

/-- One question-answer step of the richer variant: the update object
computed by handleQuestionAnswer applied through updatePlayer. -/
def handleQuestionAnswer (p : Player) (zoneId : String) (q : Question)
    (originalIndex : Nat) (isCorrect : Bool) (now : Int) : Player :=
  updatePlayer p (questionAnswerUpdates p zoneId q originalIndex isCorrect) now

/-- The leaderboard comparator of the richer variant
(src/unnamed/part_000 lines 1128 to 1148).  A negative result sorts a
before b.  JS winTime fallback winTime-or-0 is modelled with getD 0,
which agrees with the JS truthiness rule on every Option Int value. -/
def leaderboardCmp (a b : Player) : Int :=
  if a.isWinner ∧ ¬ b.isWinner then -1
  else if ¬ a.isWinner ∧ b.isWinner then 1
  else if a.isWinner ∧ b.isWinner then
    if a.winTime.getD 0 ≠ b.winTime.getD 0 then a.winTime.getD 0 - b.winTime.getD 0
    else b.totalScore - a.totalScore
  else
    if a.totalScore ≠ b.totalScore then b.totalScore - a.totalScore
    else a.lastActive - b.lastActive

/-- Session state: the GameState fields consulted by the temple
completion logic of the richer variant. -/
structure Session where
  players : List (String × Player)
  gameWinner : Option String
  winnerTime : Option Int
  gameStartTime : Int
deriving Repr

/-- The gauntlet-completion branch of TemplePage handleSubmit in the
richer variant (src/unnamed/part_000 lines 2541 to 2571), reached when
a correct submission brings the correct count to 3 or exhausts the
puzzle bank: if no session winner exists yet, record this player as the
session winner with the elapsed winning time and grant the first-winner
reward; otherwise leave the session winner untouched and grant the
smaller completion reward.  Both branches mark the player as a winner
with the completion timestamp. -/
def templeComplete (s : Session) (pid : String) (now : Int) : Session :=
  match lookupA s.players pid with
  | none => s
  | some p =>
    match s.gameWinner with
    | none =>
      { s with
          gameWinner := some pid
          winnerTime := some (now - s.gameStartTime)
          players := setA s.players pid
            (updatePlayer p
              { isWinner := some true
                winTime := some (some now)
                coins := some (p.coins + 50)
                shells := some (p.shells + 25)
                totalScore := some (p.totalScore + 100) } now) }
    | some _ =>
      { s with
          players := setA s.players pid
            (updatePlayer p
              { isWinner := some true
                winTime := some (some now)
                coins := some (p.coins + 30)
                shells := some (p.shells + 15)
                totalScore := some (p.totalScore + 60) } now) }

/-- The rarity weight table of handleCardDraw, in the declared object
order (src/unnamed/part_000 line 2104 and src/src/App.tsx line 1832,
identical in both variants). -/
def rarityWeights : List (Rarity × ℚ) :=
  [(.common, 50), (.rare, 30), (.epic, 15), (.legendary, 5)]

/-- totalWeight: the reduce-sum over the weight table. -/
def totalWeight : ℚ := (rarityWeights.map Prod.snd).sum

/-- The accumulation loop of handleCardDraw over the weight entries:
add each weight to the running cumulative weight and select the first
rarity whose cumulative weight is reached (random at most cumulative);
the selected rarity is initialised to common and kept when no entry
fires. -/
def selectRarityGo (random : ℚ) : ℚ → Rarity → List (Rarity × ℚ) → Rarity
  | _, sel, [] => sel
  | cw, sel, (r, w) :: rest =>
    let cw2 := cw + w
    if random ≤ cw2 then r else selectRarityGo random cw2 sel rest

/-- Rarity selection of handleCardDraw (src/unnamed/part_000 lines
2104 to 2117 and src/src/App.tsx lines 1832 to 1845, identical in both
variants), applied to the uniform draw random taken in the interval
from 0 inclusive to totalWeight exclusive. -/
def selectRarity (random : ℚ) : Rarity :=
  selectRarityGo random 0 .common rarityWeights

/-- The unanswered question indices of a zone bank of length bankLen
given the already-presented indices, as filtered by the ZonePage
useEffect of the richer variant (src/unnamed/part_000 lines 2009 to
2011).  JS filters the question objects by their index and recovers
the original index by reference-equality indexOf, which is exactly the
filtered index, so the embedding works on indices directly. -/
def availableIndices (bankLen : Nat) (answered : List Nat) : List Nat :=
  (List.range bankLen).filter (fun i => decide (¬ i ∈ answered))

/-- Question selection of the richer variant (src/unnamed/part_000
lines 2013 to 2016): when unanswered questions remain, present the one
at the random position k of the unanswered list (the source draws k
uniformly below the length of that list); when the pool is exhausted no
question is presented. -/
def selectQuestionIndex (bankLen : Nat) (answered : List Nat) (k : Nat) : Option Nat :=
  (availableIndices bankLen answered)[k]?

/-- Pause-related session fields of the richer variant. -/
structure ClockState where
  gameStartTime : Int
  isPaused : Bool
  pauseStartTime : Option Int
deriving DecidableEq, Repr

/-- handlePause of the richer variant (src/unnamed/part_000 lines 950
to 968): when paused, resume by clearing the pause marker and shifting
gameStartTime forward by the pause duration; when running, record the
pause start. -/
def handlePause (s : ClockState) (now : Int) : ClockState :=
  if s.isPaused then
    { gameStartTime := s.gameStartTime + (now - s.pauseStartTime.getD 0)
      isPaused := false
      pauseStartTime := none }
  else
    { s with isPaused := true, pauseStartTime := some now }

/-- The pause time observed by a GameTimer tick (src/unnamed/part_000
lines 1057 to 1060): the accumulated total plus the still-open pause
interval when a pause start is recorded. -/
def currentPauseTime (totalPauseTime : Int) (pauseStartTime : Option Int) (now : Int) : Int :=
  totalPauseTime + (match pauseStartTime with | some t => now - t | none => 0)

/-- The remaining countdown computed by a GameTimer tick
(src/unnamed/part_000 lines 1062 to 1063), floored at zero. -/
def remainingTime (timeLimit now gameStartTime totalPauseTime : Int)
    (pauseStartTime : Option Int) : Int :=
  max 0 (timeLimit * 60 * 1000 -
    (now - gameStartTime - currentPauseTime totalPauseTime pauseStartTime now))

/-- Local state of the GameTimer component. -/
structure TimerState where
  timeLeft : Int
  hasWarned : Bool
deriving DecidableEq, Repr

/-- The sound cues a GameTimer tick can emit. -/
inductive SoundCue
  | warning
  | timeup
deriving DecidableEq, Repr

/-- One GameTimer interval tick of the richer variant
(src/unnamed/part_000 lines 1050 to 1076): when paused the timer state
is left untouched and nothing plays; otherwise the remaining time is
recomputed, the warning cue plays on the tick where the remaining time
is within the window from 299001 to 300000 and no warning was played
before, and the timeup cue plays whenever the remaining time is zero.
Returns the new timer state and the emitted cues. -/
def gameTimerTick (isPaused : Bool) (gameStartTime totalPauseTime : Int)
    (pauseStartTime : Option Int) (timeLimit now : Int) (ts : TimerState) :
    TimerState × List SoundCue :=
  if isPaused then (ts, [])
  else
    let remaining := remainingTime timeLimit now gameStartTime totalPauseTime pauseStartTime
    let warn : Bool := decide (remaining ≤ 300000 ∧ 299000 < remaining ∧ ts.hasWarned = false)
    ({ timeLeft := remaining, hasWarned := warn || ts.hasWarned },
      (if warn then [SoundCue.warning] else []) ++
        (if remaining = 0 then [SoundCue.timeup] else []))

/-- The countdown recomputed inline by MapPage (src/unnamed/part_000
line 1675 and src/src/App.tsx line 1441): no pause adjustment, floored
at zero. -/
def remainingSimple (timeLimit now gameStartTime : Int) : Int :=
  max 0 (timeLimit * 60 * 1000 - (now - gameStartTime))

/-- gameEnded as derived by MapPage in both variants: the inline
countdown is exactly zero. -/
def gameEnded (timeLimit now gameStartTime : Int) : Bool :=
  remainingSimple timeLimit now gameStartTime == 0

/-- Zone-entry eligibility of the richer variant MapPage
(src/unnamed/part_000 line 1866). -/
def canPlayZone (p : Player) (ended isPaused : Bool) : Bool :=
  decide (0 < p.actionChances) && !ended && !p.isWinner && !isPaused

/-- Temple eligibility thresholds of the richer variant MapPage
(src/unnamed/part_000 line 1672). -/
def canEnterTemple (p : Player) : Bool :=
  decide (40 ≤ p.coins) && decide (15 ≤ p.shells)

/-- Zone button click handler of the richer variant MapPage
(src/unnamed/part_000 lines 1876 to 1883): navigate to the zone page
only when eligible, otherwise leave the page unchanged. -/
def zoneClick (page : String) (p : Player) (ended isPaused : Bool)
    (zoneId : String) : String :=
  if canPlayZone p ended isPaused then "zone-" ++ zoneId else page

/-- Temple button click handler of the richer variant MapPage
(src/unnamed/part_000 lines 1830 to 1837). -/
def templeClick (page : String) (p : Player) (ended isPaused : Bool) : String :=
  if canEnterTemple p && !ended && !isPaused then "temple" else page

/-- Zone-entry eligibility of the simpler variant MapPage
(src/src/App.tsx line 1634): no pause gating. -/
def canPlayZoneS (p : PlayerS) (ended : Bool) : Bool :=
  decide (0 < p.actionChances) && !ended && !p.isWinner

/-- Temple eligibility thresholds of the simpler variant MapPage
(src/src/App.tsx line 1438). -/
def canEnterTempleS (p : PlayerS) : Bool :=
  decide (10 ≤ p.coins) && decide (3 ≤ p.shells)

/-- Zone button click handler of the simpler variant MapPage
(src/src/App.tsx lines 1644 to 1650). -/
def zoneClickS (page : String) (p : PlayerS) (ended : Bool) (zoneId : String) : String :=
  if canPlayZoneS p ended then "zone-" ++ zoneId else page

/-- Temple button click handler of the simpler variant MapPage
(src/src/App.tsx lines 1599 to 1605). -/
def templeClickS (page : String) (p : PlayerS) (ended : Bool) : String :=
  if canEnterTempleS p && !ended then "temple" else page

/-- The Partial Player update computed by handleCardDraw of the richer
variant (src/unnamed/part_000 lines 2133 to 2151) for the drawn card:
the base update spends one action chance, adds the flat 15-point score
and marks the zone complete; the branch on the card type then adds the
currency effect, an action card overwriting the spent action chance
with a net gain. -/
def cardDrawUpdates (p : Player) (zoneId : String) (card : CardTemplate) : PlayerUpdates :=
  let base : PlayerUpdates :=
    { actionChances := some (p.actionChances - 1)
      totalScore := some (p.totalScore + 15)
      completedZones := some
        (if p.completedZones.contains zoneId then p.completedZones
          else p.completedZones ++ [zoneId]) }
  match card.type with
  | .coins => { base with coins := some (p.coins + card.amount) }
  | .shells => { base with shells := some (p.shells + card.amount) }
  | .bonus =>
    { base with
        coins := some (p.coins + card.amount)
        shells := some (p.shells + card.amount) }
  | .action => { base with actionChances := some (p.actionChances + card.amount) }
  | .skip => base

/-- The Partial Player update computed by handleCardDraw of the
simpler variant (src/src/App.tsx lines 1861 to 1876): as the richer
one but with no score bonus. -/
def cardDrawUpdatesS (p : PlayerS) (zoneId : String) (card : CardTemplate) : PlayerUpdatesS :=
  let base : PlayerUpdatesS :=
    { actionChances := some (p.actionChances - 1)
      completedZones := some
        (if p.completedZones.contains zoneId then p.completedZones
          else p.completedZones ++ [zoneId]) }
  match card.type with
  | .coins => { base with coins := some (p.coins + card.amount) }
  | .shells => { base with shells := some (p.shells + card.amount) }
  | .bonus =>
    { base with
        coins := some (p.coins + card.amount)
        shells := some (p.shells + card.amount) }
  | .action => { base with actionChances := some (p.actionChances + card.amount) }
  | .skip => base

/-- One card-draw step of the richer variant applied through
updatePlayer. -/
def handleCardDraw (p : Player) (zoneId : String) (card : CardTemplate) (now : Int) : Player :=
  updatePlayer p (cardDrawUpdates p zoneId card) now

/-- One card-draw step of the simpler variant applied through
updatePlayerS. -/
def handleCardDrawS (p : PlayerS) (zoneId : String) (card : CardTemplate) (now : Int) : PlayerS :=
  updatePlayerS p (cardDrawUpdatesS p zoneId card) now

/-- A concrete temple-eligible player, used as witness data. -/
def pAlice : Player :=
  { id := "A", name := "a", color := "red", coins := 40, shells := 15,
    completedZones := [], zoneProgress := [], answeredQuestions := [],
    actionChances := 5, log := [], achievements := [], totalScore := 155,
    lastActive := 0, isWinner := false, winTime := none, collectedCards := [] }

/-- A second concrete temple-eligible player, used as witness data. -/
def pBob : Player :=
  { id := "B", name := "b", color := "blue", coins := 40, shells := 15,
    completedZones := [], zoneProgress := [], answeredQuestions := [],
    actionChances := 5, log := [], achievements := [], totalScore := 155,
    lastActive := 0, isWinner := false, winTime := none, collectedCards := [] }

/-- A concrete two-player session with no winner yet, used as witness
data. -/
def sampleSession : Session :=
  { players := [("A", pAlice), ("B", pBob)]
    gameWinner := none
    winnerTime := none
    gameStartTime := 0 }

/-- A concrete hard question, used as witness data. -/
def hardQuestion : Question :=
  { question := "q", options := [], answer := 0, explanation := "",
    difficulty := .hard }

/-- A concrete running, unpaused clock, used as witness data. -/
def sampleClock : ClockState :=
  { gameStartTime := 0, isPaused := false, pauseStartTime := none }

end SeaTurtle

namespace SeaTurtle

/-- Claim C1: after every mutation through updatePlayer, in both
variants, totalScore equals coins times 2 plus shells times 5 plus
10 per completed zone — even when the caller passes a totalScore value
in the updates, since the recomputation overwrites it. -/
theorem totalScore_invariant (p : Player) (u : PlayerUpdates)
    (ps : PlayerS) (us : PlayerUpdatesS) (now : Int) :
    (updatePlayer p u now).totalScore =
      (updatePlayer p u now).coins * 2 + (updatePlayer p u now).shells * 5 +
        ((updatePlayer p u now).completedZones.length : Int) * 10 ∧
    (updatePlayerS ps us now).totalScore =
      (updatePlayerS ps us now).coins * 2 + (updatePlayerS ps us now).shells * 5 +
        ((updatePlayerS ps us now).completedZones.length : Int) * 10 := by
  constructor <;> rfl

lemma find?_filter_out {β : Type} (m : List (String × β)) (k : String) :
    (m.filter (fun e => !(e.1 == k))).find? (fun e => e.1 == k) = none := by
  rw [List.find?_eq_none]
  intro e he
  have h2 := (List.mem_filter.mp he).2
  simp at h2
  simp [h2]

lemma find?_filter_keep {β : Type} (m : List (String × β)) (k k' : String)
    (h : k' ≠ k) :
    (m.filter (fun e => !(e.1 == k))).find? (fun e => e.1 == k') =
      m.find? (fun e => e.1 == k') := by
  have hkk : ¬ (k = k') := fun x => h x.symm
  induction m with
  | nil => rfl
  | cons e rest ih =>
    by_cases he : e.1 = k'
    · have hek : ¬ e.1 = k := by rw [he]; exact h
      simp [List.filter_cons, List.find?_cons, he, hek, h, hkk]
    · by_cases hek : e.1 = k
      · simp [List.filter_cons, List.find?_cons, he, hek, h, hkk, ih]
      · simp [List.filter_cons, List.find?_cons, he, hek, h, hkk, ih]

lemma lookupA_setA_same {β : Type} (m : List (String × β)) (k : String) (v : β) :
    lookupA (setA m k v) k = some v := by
  unfold lookupA setA
  rw [List.find?_append, find?_filter_out]
  simp [List.find?_cons]

lemma lookupA_setA_ne {β : Type} (m : List (String × β)) (k k' : String) (v : β)
    (h : k' ≠ k) :
    lookupA (setA m k v) k' = lookupA m k' := by
  unfold lookupA setA
  rw [List.find?_append, find?_filter_keep m k k' h]
  have hone : List.find? (fun e => e.1 == k') [(k, v)] = none := by
    have hkk : (k == k') = false := by
      simp only [beq_eq_false_iff_ne, ne_eq]
      exact fun x => h x.symm
    simp [List.find?_cons, hkk]
  rw [hone]
  cases m.find? (fun e => e.1 == k') <;> simp

lemma lookupD_eq_lookupA {β : Type} (m : List (String × β)) (k : String) (d : β) :
    lookupD m k d = (lookupA m k).getD d := by
  unfold lookupD lookupA
  cases m.find? (fun e => e.1 == k) <;> simp

lemma lookupD_setA_same {β : Type} (m : List (String × β)) (k : String) (v d : β) :
    lookupD (setA m k v) k d = v := by
  rw [lookupD_eq_lookupA, lookupA_setA_same]
  rfl

/-- Claim C10: in both variants, a drawn action card does not consume
the action chance spent on the draw: the action branch overwrites the
minus-one update, so the draw nets exactly plus the card amount,
uncapped; any other card type costs exactly one action chance. -/
theorem action_card_nets_gain (p : Player) (ps : PlayerS) (zoneId : String)
    (card : CardTemplate) (now : Int) :
    (handleCardDraw p zoneId card now).actionChances =
      (if card.type = CardType.action then p.actionChances + card.amount
        else p.actionChances - 1) ∧
    (handleCardDrawS ps zoneId card now).actionChances =
      (if card.type = CardType.action then ps.actionChances + card.amount
        else ps.actionChances - 1) := by
  cases h : card.type <;>
    simp [handleCardDraw, handleCardDrawS, cardDrawUpdates, cardDrawUpdatesS,
      updatePlayer, updatePlayerS, h]

/-- Counterexample to claim C2: a player with 0 coins and 0 shells who
answers a hard question correctly in the coral zone gains 3 shells but
ends with totalScore 15, not an increase of 20 — the flat difficulty
bonus written by handleQuestionAnswer is overwritten by the totalScore
recomputation inside updatePlayer. -/
theorem hard_coral_flat_bonus_counterexample :
    (handleQuestionAnswer
      { id := "p1", name := "A", color := "red", coins := 0, shells := 0,
        completedZones := [], zoneProgress := [], answeredQuestions := [],
        actionChances := 5, log := [], achievements := [], totalScore := 0,
        lastActive := 0, isWinner := false, winTime := none, collectedCards := [] }
      "coral"
      { question := "q", options := [], answer := 0, explanation := "",
        difficulty := .hard } 0 true 1000).shells = 3 ∧
    (handleQuestionAnswer
      { id := "p1", name := "A", color := "red", coins := 0, shells := 0,
        completedZones := [], zoneProgress := [], answeredQuestions := [],
        actionChances := 5, log := [], achievements := [], totalScore := 0,
        lastActive := 0, isWinner := false, winTime := none, collectedCards := [] }
      "coral"
      { question := "q", options := [], answer := 0, explanation := "",
        difficulty := .hard } 0 true 1000).totalScore ≠ 0 + 20 := by
  constructor <;> decide

/-- Claim C2 as amended: the difficulty score bonus passed by
handleQuestionAnswer is discarded by the updatePlayer recomputation; a
player with 0 coins, 0 shells and no completed zones who answers a
hard coral question correctly without thereby completing the zone ends
with shells 3 and totalScore 15 (the shell reward times 5), not an
increase of 20. -/
theorem hard_coral_score_amended (p : Player) (q : Question) (i : Nat) (now : Int)
    (hd : q.difficulty = .hard) (hc : p.coins = 0) (hs : p.shells = 0)
    (hz : p.completedZones = []) (hp : lookupD p.zoneProgress "coral" 0 + 1 < 3) :
    (handleQuestionAnswer p "coral" q i true now).shells = 3 ∧
    (handleQuestionAnswer p "coral" q i true now).totalScore = 15 := by
  have h3 : ¬ (3 ≤ lookupD p.zoneProgress "coral" 0 + 1) := by omega
  simp [handleQuestionAnswer, questionAnswerUpdates, updatePlayer, hd, hc, hs, hz,
    coralShellReward, h3]

/-- Witness for the amended claim C2 at a concrete player. -/
theorem hard_coral_score_amended_witness :
    (handleQuestionAnswer
      { id := "p1", name := "A", color := "red", coins := 0, shells := 0,
        completedZones := [], zoneProgress := [], answeredQuestions := [],
        actionChances := 5, log := [], achievements := [], totalScore := 0,
        lastActive := 0, isWinner := false, winTime := none, collectedCards := [] }
      "coral"
      { question := "q", options := [], answer := 0, explanation := "",
        difficulty := .hard } 0 true 1000).shells = 3 ∧
    (handleQuestionAnswer
      { id := "p1", name := "A", color := "red", coins := 0, shells := 0,
        completedZones := [], zoneProgress := [], answeredQuestions := [],
        actionChances := 5, log := [], achievements := [], totalScore := 0,
        lastActive := 0, isWinner := false, winTime := none, collectedCards := [] }
      "coral"
      { question := "q", options := [], answer := 0, explanation := "",
        difficulty := .hard } 0 true 1000).totalScore = 15 :=
  hard_coral_score_amended _ _ 0 1000 rfl rfl rfl rfl (by decide)

/-- Claim C9: in both variants, once the countdown has reached zero
every zone-entry click and temple-entry click leaves the page
unchanged, whatever the remaining action chances and even when the
temple thresholds are met. -/
theorem expired_rejects_actions (L now start : Int) (page zoneId : String)
    (p : Player) (ps : PlayerS) (isPaused : Bool)
    (h : remainingSimple L now start = 0) :
    zoneClick page p (gameEnded L now start) isPaused zoneId = page ∧
    templeClick page p (gameEnded L now start) isPaused = page ∧
    zoneClickS page ps (gameEnded L now start) zoneId = page ∧
    templeClickS page ps (gameEnded L now start) = page := by
  have hg : gameEnded L now start = true := by simp [gameEnded, h]
  rw [hg]
  simp [zoneClick, templeClick, zoneClickS, templeClickS, canPlayZone, canPlayZoneS]

/-- Witness for claim C9: an expired session with a rich, eligible
player still rejects both entries. -/
theorem expired_rejects_actions_witness :
    zoneClick "map"
      { id := "p1", name := "A", color := "red", coins := 99, shells := 99,
        completedZones := [], zoneProgress := [], answeredQuestions := [],
        actionChances := 5, log := [], achievements := [], totalScore := 0,
        lastActive := 0, isWinner := false, winTime := none, collectedCards := [] }
      (gameEnded 30 1800000 0) false "coral" = "map" ∧
    templeClickS "map"
      { id := "p2", name := "B", color := "blue", coins := 99, shells := 99,
        completedZones := [], actionChances := 5, log := [], achievements := [],
        totalScore := 0, lastActive := 0, isWinner := false, winTime := none,
        collectedCards := [] }
      (gameEnded 30 1800000 0) = "map" := by
  have h := expired_rejects_actions 30 1800000 0 "map" "coral"
    { id := "p1", name := "A", color := "red", coins := 99, shells := 99,
      completedZones := [], zoneProgress := [], answeredQuestions := [],
      actionChances := 5, log := [], achievements := [], totalScore := 0,
      lastActive := 0, isWinner := false, winTime := none, collectedCards := [] }
    { id := "p2", name := "B", color := "blue", coins := 99, shells := 99,
      completedZones := [], actionChances := 5, log := [], achievements := [],
      totalScore := 0, lastActive := 0, isWinner := false, winTime := none,
      collectedCards := [] }
    false (by decide)
  exact ⟨h.1, h.2.2.2⟩

/-- Claim C3: the leaderboard comparator of the richer variant orders
winners before non-winners, winners by ascending winTime then
descending totalScore, non-winners by descending totalScore then
ascending lastActive, and the induced sorts-at-or-before relation is
transitive: no comparator combination produces a cycle. -/
theorem leaderboardCmp_trans (a b c : Player)
    (hab : leaderboardCmp a b ≤ 0) (hbc : leaderboardCmp b c ≤ 0) :
    leaderboardCmp a c ≤ 0 := by
  unfold leaderboardCmp at hab hbc ⊢
  cases ha : a.isWinner <;> cases hb : b.isWinner <;> cases hc : c.isWinner <;>
    simp only [ha, hb, hc] at hab hbc ⊢ <;>
    simp at hab hbc ⊢ <;>
    split_ifs at hab hbc ⊢ <;>
    omega

/-- Witness for claim C3 at three concrete non-winner players ordered
by score. -/
theorem leaderboardCmp_trans_witness :
    leaderboardCmp
      { id := "a", name := "a", color := "red", coins := 0, shells := 0,
        completedZones := [], zoneProgress := [], answeredQuestions := [],
        actionChances := 5, log := [], achievements := [], totalScore := 30,
        lastActive := 3, isWinner := false, winTime := none, collectedCards := [] }
      { id := "c", name := "c", color := "teal", coins := 0, shells := 0,
        completedZones := [], zoneProgress := [], answeredQuestions := [],
        actionChances := 5, log := [], achievements := [], totalScore := 10,
        lastActive := 1, isWinner := false, winTime := none, collectedCards := [] } ≤ 0 :=
  leaderboardCmp_trans
    { id := "a", name := "a", color := "red", coins := 0, shells := 0,
      completedZones := [], zoneProgress := [], answeredQuestions := [],
      actionChances := 5, log := [], achievements := [], totalScore := 30,
      lastActive := 3, isWinner := false, winTime := none, collectedCards := [] }
    { id := "b", name := "b", color := "blue", coins := 0, shells := 0,
      completedZones := [], zoneProgress := [], answeredQuestions := [],
      actionChances := 5, log := [], achievements := [], totalScore := 20,
      lastActive := 2, isWinner := false, winTime := none, collectedCards := [] }
    { id := "c", name := "c", color := "teal", coins := 0, shells := 0,
      completedZones := [], zoneProgress := [], answeredQuestions := [],
      actionChances := 5, log := [], achievements := [], totalScore := 10,
      lastActive := 1, isWinner := false, winTime := none, collectedCards := [] }
    (by decide) (by decide)

/-- Claim C4: the session winner and winning time are set exactly once,
by the first player to complete the temple gauntlet while the winner is
unset; a later completion by another player leaves them untouched while
that player still becomes a personal winner with their own winTime. -/
theorem gameWinner_set_once (s : Session) (pidA pidB : String) (pA pB : Player)
    (tA tB : Int)
    (hw : s.gameWinner = none)
    (hA : lookupA s.players pidA = some pA)
    (hB : lookupA s.players pidB = some pB)
    (hne : pidB ≠ pidA) :
    (templeComplete s pidA tA).gameWinner = some pidA ∧
    (templeComplete s pidA tA).winnerTime = some (tA - s.gameStartTime) ∧
    (templeComplete (templeComplete s pidA tA) pidB tB).gameWinner = some pidA ∧
    (templeComplete (templeComplete s pidA tA) pidB tB).winnerTime =
      some (tA - s.gameStartTime) ∧
    ((lookupA (templeComplete (templeComplete s pidA tA) pidB tB).players pidB).map
      Player.isWinner) = some true ∧
    ((lookupA (templeComplete (templeComplete s pidA tA) pidB tB).players pidB).map
      Player.winTime) = some (some tB) ∧
    ((lookupA (templeComplete (templeComplete s pidA tA) pidB tB).players pidA).map
      Player.isWinner) = some true := by
  have hstep1 : templeComplete s pidA tA =
      { s with
          gameWinner := some pidA
          winnerTime := some (tA - s.gameStartTime)
          players := setA s.players pidA
            (updatePlayer pA
              { isWinner := some true
                winTime := some (some tA)
                coins := some (pA.coins + 50)
                shells := some (pA.shells + 25)
                totalScore := some (pA.totalScore + 100) } tA) } := by
    unfold templeComplete
    rw [hA, hw]
  have hB1 : lookupA (templeComplete s pidA tA).players pidB = some pB := by
    rw [hstep1]
    simpa [lookupA_setA_ne _ _ _ _ hne] using hB
  have hstep2gen : ∀ s' : Session, s'.gameWinner = some pidA →
      lookupA s'.players pidB = some pB →
      templeComplete s' pidB tB =
        { s' with
            players := setA s'.players pidB
              (updatePlayer pB
                { isWinner := some true
                  winTime := some (some tB)
                  coins := some (pB.coins + 30)
                  shells := some (pB.shells + 15)
                  totalScore := some (pB.totalScore + 60) } tB) } := by
    intro s' hw' hB'
    unfold templeComplete
    rw [hB', hw']
  have hstep2 : templeComplete (templeComplete s pidA tA) pidB tB =
      { templeComplete s pidA tA with
          players := setA (templeComplete s pidA tA).players pidB
            (updatePlayer pB
              { isWinner := some true
                winTime := some (some tB)
                coins := some (pB.coins + 30)
                shells := some (pB.shells + 15)
                totalScore := some (pB.totalScore + 60) } tB) } :=
    hstep2gen (templeComplete s pidA tA) (by rw [hstep1]) hB1
  refine ⟨by rw [hstep1], by rw [hstep1], ?_, ?_, ?_, ?_, ?_⟩
  · rw [hstep2, hstep1]
  · rw [hstep2, hstep1]
  · rw [hstep2, lookupA_setA_same]
    simp [updatePlayer]
  · rw [hstep2, lookupA_setA_same]
    simp [updatePlayer]
  · rw [hstep2, lookupA_setA_ne _ _ _ _ (fun x => hne x.symm), hstep1,
      lookupA_setA_same]
    simp [updatePlayer]

/-- Witness for claim C4 at a concrete two-player session: A completes
first, B completes later; the session winner stays A while B is still
a personal winner. -/
theorem gameWinner_set_once_witness :
    (templeComplete (templeComplete sampleSession "A" 600000) "B" 900000).gameWinner =
      some "A" ∧
    ((lookupA
      (templeComplete (templeComplete sampleSession "A" 600000) "B" 900000).players
      "B").map Player.isWinner) = some true := by
  have h := gameWinner_set_once sampleSession "A" "B" pAlice pBob 600000 900000
    rfl (by decide) (by decide) (by decide)
  exact ⟨h.2.2.1, h.2.2.2.2.1⟩

/-- Claim C5: the card-draw rarity selection of both variants walks
the weights in the declared order common, rare, epic, legendary with
the at-most-cumulative comparison, so a uniform draw in the interval
from 0 to the total weight 100 partitions into consecutive intervals
whose lengths are exactly the declared weights 50, 30, 15 and 5, with
boundary values resolving to the earlier rarity. -/
theorem rarity_partition (r : ℚ) (_h0 : 0 ≤ r) (h1 : r < 100) :
    totalWeight = 100 ∧
    (selectRarity r = .common ↔ r ≤ 50) ∧
    (selectRarity r = .rare ↔ 50 < r ∧ r ≤ 80) ∧
    (selectRarity r = .epic ↔ 80 < r ∧ r ≤ 95) ∧
    (selectRarity r = .legendary ↔ 95 < r) := by
  have hw : totalWeight = 100 := by norm_num [totalWeight, rarityWeights]
  have key : selectRarity r =
      (if r ≤ 50 then .common else if r ≤ 80 then .rare
        else if r ≤ 95 then .epic else if r ≤ 100 then .legendary else .common) := by
    simp only [selectRarity, selectRarityGo, rarityWeights]
    norm_num
  rw [key]
  refine ⟨hw, ?_, ?_, ?_, ?_⟩ <;>
    split_ifs <;> simp <;>
      first
        | linarith
        | (constructor <;> linarith)
        | (intro hx; linarith)

/-- Witness for claim C5 at the concrete draw 55, which selects the
rare tier. -/
theorem rarity_partition_witness :
    totalWeight = 100 ∧ selectRarity 55 = Rarity.rare :=
  ⟨(rarity_partition 55 (by norm_num) (by norm_num)).1,
    ((rarity_partition 55 (by norm_num) (by norm_num)).2.2.1).mpr
      ⟨by norm_num, by norm_num⟩⟩

/-- Claim C6: in the richer variant, a presented question index is
never one already in the answeredQuestions set of that player and
zone, both correct and wrong answers append the presented index to
that set, and a question is presented whenever an unanswered index
remains — so no index repeats for the same player and zone until the
bank is exhausted. -/
theorem question_no_repeat (n : Nat) (ans : List Nat) (k i : Nat)
    (p : Player) (z : String) (q : Question) (c : Bool) (now : Int)
    (hsel : selectQuestionIndex n ans k = some i) :
    (i < n ∧ i ∉ ans) ∧
    lookupD (handleQuestionAnswer p z q i c now).answeredQuestions z [] =
      lookupD p.answeredQuestions z [] ++ [i] ∧
    (∀ j, j < n → j ∉ ans → selectQuestionIndex n ans 0 ≠ none) := by
  have hmem : i ∈ availableIndices n ans := List.getElem?_mem hsel
  have hsplit := List.mem_filter.mp hmem
  refine ⟨⟨List.mem_range.mp hsplit.1, by simpa using hsplit.2⟩, ?_, ?_⟩
  · cases c <;>
      simp [handleQuestionAnswer, questionAnswerUpdates, updatePlayer,
        lookupD_setA_same]
  · intro j hj hnj hnone
    have hjmem : j ∈ availableIndices n ans := by
      rw [availableIndices, List.mem_filter]
      exact ⟨List.mem_range.mpr hj, by simpa using hnj⟩
    rw [selectQuestionIndex, List.getElem?_eq_none_iff] at hnone
    have hnil : availableIndices n ans = [] :=
      List.length_eq_zero.mp (Nat.le_zero.mp hnone)
    rw [hnil] at hjmem
    exact (List.not_mem_nil j) hjmem

/-- Witness for claim C6: with indices 0 and 2 already answered out of
a bank of 15, position 0 of the unanswered pool presents index 1. -/
theorem question_no_repeat_witness :
    ((1 : Nat) < 15 ∧ (1 : Nat) ∉ [0, 2]) ∧
    lookupD (handleQuestionAnswer pAlice "coral" hardQuestion 1 true 5).answeredQuestions
        "coral" [] =
      lookupD pAlice.answeredQuestions "coral" [] ++ [1] ∧
    (∀ j, j < 15 → j ∉ [0, 2] → selectQuestionIndex 15 [0, 2] 0 ≠ none) :=
  question_no_repeat 15 [0, 2] 0 1 pAlice "coral" hardQuestion true 5 (by decide)

/-- Claim C7: in the richer variant, a tick during a pause leaves the
timer state untouched, and resuming after any pause duration shifts
gameStartTime forward by exactly that duration, so the remaining time
computed at the resume instant equals the remaining time computed at
the pause instant — paused wall-clock time never counts toward the
limit. -/
theorem pause_resume_no_leak (cs : ClockState) (L tp tr : Int)
    (ts : TimerState) (gst tpt tlim tnow : Int) (pst : Option Int)
    (hrun : cs.isPaused = false) (hnopst : cs.pauseStartTime = none) :
    gameTimerTick true gst tpt pst tlim tnow ts = (ts, []) ∧
    (handlePause cs tp).isPaused = true ∧
    (handlePause (handlePause cs tp) tr).isPaused = false ∧
    (handlePause (handlePause cs tp) tr).gameStartTime =
      cs.gameStartTime + (tr - tp) ∧
    remainingTime L tr (handlePause (handlePause cs tp) tr).gameStartTime 0
        (handlePause (handlePause cs tp) tr).pauseStartTime =
      remainingTime L tp cs.gameStartTime 0 cs.pauseStartTime := by
  have hp1 : handlePause cs tp =
      { cs with isPaused := true, pauseStartTime := some tp } := by
    simp [handlePause, hrun]
  have hp2 : handlePause (handlePause cs tp) tr =
      { gameStartTime := cs.gameStartTime + (tr - tp), isPaused := false,
        pauseStartTime := none } := by
    rw [hp1]
    simp [handlePause]
  refine ⟨by simp [gameTimerTick], by rw [hp1], by rw [hp2], by rw [hp2], ?_⟩
  rw [hp2, hnopst]
  simp only [remainingTime, currentPauseTime]
  have harg : tr - (cs.gameStartTime + (tr - tp)) - (0 + 0) =
      tp - cs.gameStartTime - (0 + 0) := by ring
  rw [harg]

/-- Witness for claim C7: pausing at 1000 and resuming at 5000 leaves
the countdown where it was. -/
theorem pause_resume_no_leak_witness :
    gameTimerTick true 0 0 none 30 2000 { timeLeft := 7, hasWarned := false } =
      ({ timeLeft := 7, hasWarned := false }, []) ∧
    (handlePause sampleClock 1000).isPaused = true ∧
    (handlePause (handlePause sampleClock 1000) 5000).isPaused = false ∧
    (handlePause (handlePause sampleClock 1000) 5000).gameStartTime =
      sampleClock.gameStartTime + (5000 - 1000) ∧
    remainingTime 30 5000 (handlePause (handlePause sampleClock 1000) 5000).gameStartTime 0
        (handlePause (handlePause sampleClock 1000) 5000).pauseStartTime =
      remainingTime 30 1000 sampleClock.gameStartTime 0 sampleClock.pauseStartTime :=
  pause_resume_no_leak sampleClock 30 1000 5000
    { timeLeft := 7, hasWarned := false } 0 0 30 2000 none rfl rfl

/-- Claim C8 fails on the code: the warning cue is edge-triggered by
the hasWarned flag and plays only on the crossing tick, but the timeup
cue replays on every tick where the remaining time is zero — here two
consecutive ticks of an expired 30-minute session each emit timeup,
while the warning window ticks show the one-shot warning for
contrast. -/
theorem timeup_refires_every_tick :
    gameTimerTick false 0 0 none 30 1500500 { timeLeft := 300500, hasWarned := false } =
      ({ timeLeft := 299500, hasWarned := true }, [SoundCue.warning]) ∧
    gameTimerTick false 0 0 none 30 1501500 { timeLeft := 299500, hasWarned := true } =
      ({ timeLeft := 298500, hasWarned := true }, []) ∧
    gameTimerTick false 0 0 none 30 1800000 { timeLeft := 1000, hasWarned := true } =
      ({ timeLeft := 0, hasWarned := true }, [SoundCue.timeup]) ∧
    gameTimerTick false 0 0 none 30 1801000 { timeLeft := 0, hasWarned := true } =
      ({ timeLeft := 0, hasWarned := true }, [SoundCue.timeup]) := by
  refine ⟨?_, ?_, ?_, ?_⟩ <;> decide

end SeaTurtle
